import Mathlib

/-!
Verification of the Speak2Fill turn processor (backend/app/routes/chat.py)
against its natural-language specification.

The development shallowly embeds the deterministic core of the service:
  * `backend/app/schemas/models.py`   (request-event normalization),
  * `backend/app/services/session_service.py` (session state and mutators),
  * `backend/app/routes/chat.py`      (the /chat turn processor),
  * `backend/app/services/gemini_live_service.py` (`_normalize`, the value
    normalization policy),
and, where the repository only contains callers of a component (the sticky
language accessors), a model written from the specification text.

External services (Sarvam STT/LLM/TTS, translation) are network calls.  The
turn processor is embedded parametrically in two Option-valued functions:
`extract` for `SarvamService.extract_field_value` — awaited outside any
try/except at `chat.py` line 140, so `none` (the live path raises
`RuntimeError`, `sarvam_service.py` lines 103-104) surfaces as an uncaught
exception, i.e. HTTP 500 — and `instr` for
`SarvamService.generate_instruction_text`, which the route calls inside
try/except with the English template as fallback.  Their deterministic
offline stubs are embedded as `stubExtract` and `stubInstruction`.
`_translate_if_needed` returns its input text for `en` and otherwise calls
`sarvam.translate_text` inside try/except, falling back to the input text
on any failure; since `SarvamService` in the tree defines no
`translate_text` method, every call takes the fallback path, so
`translate_if_needed` is the identity for every language.
-/

namespace Speak2Fill

/-! ### Python string primitives

Faithful models of the `str` operations the routes use.  Python whitespace
for `str.strip`/`str.split` is space, tab, newline, carriage return,
vertical tab and form feed.  `str.lower`/`str.upper` are modelled on the
ASCII range, which is exact for every keyword, event name and input the
claims mention. -/

def isPySpace (c : Char) : Bool :=
  c = ' ' || c = '\t' || c = '\n' || c = '\r' || c = '\x0b' || c = '\x0c'

def pyStrip (s : String) : String :=
  String.mk (((s.data.dropWhile isPySpace).reverse.dropWhile isPySpace).reverse)

def asciiLower (c : Char) : Char :=
  if 'A' ≤ c && c ≤ 'Z' then Char.ofNat (c.toNat + 32) else c

def asciiUpper (c : Char) : Char :=
  if 'a' ≤ c && c ≤ 'z' then Char.ofNat (c.toNat - 32) else c

def pyLower (s : String) : String := String.mk (s.data.map asciiLower)

def pyUpper (s : String) : String := String.mk (s.data.map asciiUpper)

/-- `s.replace(" ", "_")`: the pattern is a single character, so this is a
character map. -/
def pySpaceToUnderscore (s : String) : String :=
  String.mk (s.data.map fun c => if c = ' ' then '_' else c)

/-- `s.split()` with no argument: split on runs of whitespace, dropping
empty pieces. -/
def pySplitWS : List Char → List Char → List (List Char)
  | [], [] => []
  | [], acc => [acc.reverse]
  | c :: cs, acc =>
    if isPySpace c then
      if acc = [] then pySplitWS cs [] else acc.reverse :: pySplitWS cs []
    else
      pySplitWS cs (c :: acc)

def isAsciiDigit (c : Char) : Bool := '0' ≤ c && c ≤ '9'

/-- Python truthiness chain `a or b or ""` over two optional strings. -/
def pyOr (a b : Option String) : String :=
  if a.getD "" ≠ "" then a.getD "" else b.getD ""

/-! ### Python dict operations (insertion-ordered association lists) -/

/-- `d[k] = v` on a Python dict: overwrite in place if present, else append. -/
def dictSet : List (String × String) → String → String → List (String × String)
  | [], k, v => [(k, v)]
  | (k0, v0) :: rest, k, v =>
    if k0 = k then (k, v) :: rest else (k0, v0) :: dictSet rest k v

/-- `d.get(k, default)` on a Python dict. -/
def dictGet : List (String × String) → String → String → String
  | [], _, d => d
  | (k0, v0) :: rest, k, d => if k0 = k then v0 else dictGet rest k d

/-! ### Data model (`session_service.py`, `models.py`) -/

inductive Phase where
  | ASK_INPUT
  | AWAIT_CONFIRMATION
deriving DecidableEq, Repr

structure FormField where
  field_id : String
  label : String
  bbox : List Int
  input_mode : String
  write_language : String
deriving DecidableEq, Repr

structure SessionState where
  session_id : String
  current_field_index : Nat
  phase : Phase
  fields : List FormField
  collected_values : List (String × String)
  image_width : Nat
  image_height : Nat
deriving DecidableEq, Repr

structure DrawGuideAction where
  field_id : String
  field_label : String
  text_to_write : String
  bbox : List Int
  image_width : Nat
  image_height : Nat
deriving DecidableEq, Repr

structure ChatResponse where
  assistant_text : String
  action : Option DrawGuideAction
deriving DecidableEq, Repr

/-- Outcome of one `/chat` request: a 200 response together with the session
state left in the store, or an HTTPException with its status code. -/
inductive ChatResult where
  | ok (state : SessionState) (response : ChatResponse)
  | error (status : Nat) (detail : String)
deriving DecidableEq, Repr

def ChatResult.statusOf : ChatResult → Nat
  | .ok _ _ => 200
  | .error s _ => s

/-! ### SessionService (`session_service.py`) -/

/-- `SessionService.create_session`: index 0, phase ASK_INPUT, empty values. -/
def create_session (sid : String) (fields : List FormField)
    (image_width image_height : Nat) : SessionState :=
  { session_id := sid
    current_field_index := 0
    phase := Phase.ASK_INPUT
    fields := fields
    collected_values := []
    image_width := image_width
    image_height := image_height }

/-- `SessionService.get_current_field`: `None` once the index reaches the
field count, else the field at the index. -/
def get_current_field (st : SessionState) : Option FormField :=
  if st.current_field_index ≥ st.fields.length then none
  else st.fields[st.current_field_index]?

/-- `SessionService.has_more_fields`. -/
def has_more_fields (st : SessionState) : Bool :=
  st.current_field_index < st.fields.length

/-- `SessionService.advance_to_next_field`: increment the index by one and
reset the phase to ASK_INPUT. -/
def advance_to_next_field (st : SessionState) : SessionState :=
  { st with current_field_index := st.current_field_index + 1
            phase := Phase.ASK_INPUT }

/-- `SessionService.set_phase`. -/
def set_phase (st : SessionState) (p : Phase) : SessionState :=
  { st with phase := p }

/-- `SessionService.store_value`. -/
def store_value (st : SessionState) (fid v : String) : SessionState :=
  { st with collected_values := dictSet st.collected_values fid v }

/-! ### Request-event normalization (`models.py`, `ChatRequest.normalize_event`) -/

/-- The alias table of `ChatRequest.normalize_event`. -/
def eventMapping : List (String × String) :=
  [("USER", "USER_SPOKE"), ("USER_SPOKE", "USER_SPOKE"),
   ("CONFIRM", "CONFIRM_DONE"), ("CONFIRM_DONE", "CONFIRM_DONE"),
   ("CONFIRMATION", "CONFIRM_DONE"),
   ("SKIP", "SKIP_FIELD"), ("SKIP_FIELD", "SKIP_FIELD"),
   ("SKIPFIELD", "SKIP_FIELD")]

/-- `ChatRequest.normalize_event` (a `mode="before"` validator, so it runs on
the raw request value and its result is what the route sees): falsy values
become USER_SPOKE; otherwise strip, upper-case, replace spaces with
underscores and look the result up in the alias table, defaulting to
USER_SPOKE. -/
def normalize_event (v : Option String) : String :=
  match v with
  | none => "USER_SPOKE"
  | some s =>
    if s = "" then "USER_SPOKE"
    else dictGet eventMapping (pySpaceToUnderscore (pyUpper (pyStrip s))) "USER_SPOKE"

/-! ### The /chat turn processor (`chat.py`) -/

/-- The confirmation keyword set of `chat.py` (line 88). -/
def confirmation_words : List String :=
  ["done", "finished", "ok", "completed", "yes", "y", "confirmed"]

/-- Lines 89-91 of `chat.py`: a USER_SPOKE event whose (already stripped)
text lower-cases to a confirmation keyword is reinterpreted as CONFIRM_DONE,
before any state-dependent dispatch. -/
def resolve_event (event text : String) : String :=
  if event = "USER_SPOKE" && text ≠ "" && confirmation_words.contains (pyLower text) then
    "CONFIRM_DONE"
  else event

/-- The deterministic offline stub of `SarvamService.extract_field_value`
(lines 92-93 of `sarvam_service.py`): return the user text unchanged, never
failing.  The live path is an external LLM call that raises `RuntimeError`
on API failure (lines 103-104); since `chat.py` awaits the call outside any
try/except, the processor is parametric in an Option-valued extraction
function, with `none` standing for the raised exception. -/
def stubExtract (_fieldLabel userText _writeLanguage : String) : Option String :=
  some userText

/-- The deterministic offline stub of
`SarvamService.generate_instruction_text` (lines 144-145 of
`sarvam_service.py`).  The live path is an external LLM call; `none` stands
for its raised exception, which the route catches (see
`instruction_text`). -/
def stubInstruction (field_label extracted_value _targetLanguage : String) :
    Option String :=
  some ("Please write " ++ extracted_value ++ " in the " ++ field_label ++ " box.")

/-- `_normalize_language` (`chat.py` lines 26-35): falsy values become
`en`; otherwise strip, lower-case, turn underscores into hyphens, keep the
part before the first hyphen, and map anything outside
{en, hi, ml, ta, te} to `en`. -/
def normalize_language (lang : Option String) : String :=
  match lang with
  | none => "en"
  | some s =>
    if s = "" then "en"
    else
      let lower := String.mk ((pyLower (pyStrip s)).data.map
        fun c => if c = '_' then '-' else c)
      let lower := String.mk (lower.data.takeWhile fun c => c ≠ '-')
      if ["en", "hi", "ml", "ta", "te"].contains lower then lower else "en"

/-- `_translate_if_needed` (`chat.py` lines 38-45): for `en` the text is
returned unchanged; for any other language `sarvam.translate_text` is
called inside try/except with the untranslated text as the fallback.
`SarvamService` defines no `translate_text` method, so that call always
raises `AttributeError` and is caught: the function returns its input for
every language.  The inline try/except around `translate_text` at
`chat.py` lines 222-227 has the same always-fallback semantics and is
modelled by the same function. -/
def translate_if_needed (text : String) (_lang : String) : String := text

/-- The instruction text of the extraction branch (`chat.py` lines
152-164): the English template when the resolved language is `en`,
otherwise the result of `generate_instruction_text` (`instr`, an external
LLM call), falling back to the English template when that call fails. -/
def instruction_text (instr : String → String → String → Option String)
    (user_lang field_label extracted_value : String) : String :=
  if user_lang = "en" then
    "Please write " ++ extracted_value ++ " inside the highlighted box."
  else
    match instr field_label extracted_value user_lang with
    | some s => s
    | none => "Please write " ++ extracted_value ++ " inside the highlighted box."

/-- The `/chat` route body (`chat` in `chat.py`), embedded as a pure function.

  * `extract` stands for `SarvamService.extract_field_value` (line 140): an
    awaited external call outside any try/except, so `none` — the
    `RuntimeError` raised by the live path — surfaces as an uncaught
    exception, i.e. HTTP 500 ("Internal Server Error").
  * `instr` stands for `SarvamService.generate_instruction_text` (lines
    156-161), called inside try/except with the English template as the
    fallback (see `instruction_text`).
  * `session` is the result of `session_service.get_session(req.session_id)`.
  * `stored_lang` is `state.detected_language or store.get_language(...)`
    (line 68); those accessors are referenced but defined nowhere in the
    services of the tree (see `resolve_language`), so the stored language
    is taken as an input.
  * `event` is the request event after the `normalize_event` validator.
  * `user_text`/`user_message` are the raw optional request strings.

Every branch mirrors the source in order: 404 on a missing session,
language normalization, the completion check, the current-field lookup,
text/event computation, keyword reinterpretation, the SKIP_FIELD branch,
then the phase dispatch. -/
def chat (extract : String → String → String → Option String)
    (instr : String → String → String → Option String)
    (session : Option SessionState) (stored_lang : Option String)
    (event : String) (user_text user_message : Option String) : ChatResult :=
  match session with
  | none => ChatResult.error 404 "Session not found"
  | some state =>
    let user_lang := normalize_language stored_lang
    if ¬ has_more_fields state then
      ChatResult.ok state
        { assistant_text :=
            translate_if_needed "You have completed the form. Thank you!" user_lang
          action := none }
    else
      match get_current_field state with
      | none => ChatResult.error 500 "No current field"
      | some current_field =>
        let text := pyStrip (pyOr user_text user_message)
        let event1 := if event = "" then "USER_SPOKE" else event
        let event2 := resolve_event event1 text
        if event2 = "SKIP_FIELD" then
          let st1 := advance_to_next_field state
          if ¬ has_more_fields st1 then
            ChatResult.ok st1
              { assistant_text :=
                  translate_if_needed
                    "You skipped the last field. The form is complete." user_lang
                action := none }
          else
            match get_current_field st1 with
            | none => ChatResult.error 500 "No next field after skip"
            | some next_field =>
              let st2 := set_phase st1 Phase.ASK_INPUT
              ChatResult.ok st2
                { assistant_text :=
                    translate_if_needed
                      ("Skipped. Please provide the value for " ++
                        next_field.label ++ ".") user_lang
                  action := none }
        else
          match state.phase with
          | Phase.ASK_INPUT =>
            if event2 ≠ "USER_SPOKE" then
              ChatResult.ok state
                { assistant_text :=
                    translate_if_needed
                      ("Please speak the value for " ++ current_field.label ++ ".")
                      user_lang
                  action := none }
            else if text = "" then
              ChatResult.error 400 "user_text required for USER_SPOKE event"
            else
              match extract current_field.label text current_field.write_language with
              | none => ChatResult.error 500 "Internal Server Error"
              | some extracted_value =>
                let st1 := store_value state current_field.field_id extracted_value
                let st2 := set_phase st1 Phase.AWAIT_CONFIRMATION
                ChatResult.ok st2
                  { assistant_text :=
                      instruction_text instr user_lang current_field.label
                        extracted_value
                    action := some
                      { field_id := current_field.field_id
                        field_label := current_field.label
                        text_to_write := extracted_value
                        bbox := current_field.bbox
                        image_width := state.image_width
                        image_height := state.image_height } }
          | Phase.AWAIT_CONFIRMATION =>
            if event2 ≠ "CONFIRM_DONE" then
              ChatResult.ok state
                { assistant_text :=
                    translate_if_needed
                      "Please write it down first, then press the \x27Done Writing\x27 button."
                      user_lang
                  action := some
                    { field_id := current_field.field_id
                      field_label := current_field.label
                      text_to_write :=
                        dictGet state.collected_values current_field.field_id ""
                      bbox := current_field.bbox
                      image_width := state.image_width
                      image_height := state.image_height } }
            else
              let st1 := advance_to_next_field state
              if ¬ has_more_fields st1 then
                ChatResult.ok st1
                  { assistant_text :=
                      translate_if_needed "Great job! The form is complete." user_lang
                    action := none }
              else
                match get_current_field st1 with
                | none =>
                  ChatResult.ok st1
                    { assistant_text :=
                        translate_if_needed "The form is complete." user_lang
                      action := none }
                | some next_field =>
                  ChatResult.ok st1
                    { assistant_text :=
                        translate_if_needed
                          ("Now please say the value for " ++ next_field.label ++ ".")
                          user_lang
                      action := none }

/-- The session state left in the store by one `/chat` turn: the state in a
200 result; on a 400/404, and on the uncaught extraction failure (the
exception at `chat.py` line 140 is raised before `store_value`), the route
aborts before any mutation, so the stored state is unchanged. -/
def chatState (extract instr : String → String → String → Option String)
    (st : SessionState) (stored_lang : Option String) (event : String)
    (user_text user_message : Option String) : SessionState :=
  match chat extract instr (some st) stored_lang event user_text user_message with
  | ChatResult.ok st1 _ => st1
  | ChatResult.error _ _ => st

/-! ### Value normalization (`gemini_live_service.py`, `GeminiLiveService._normalize`) -/

/-- `GeminiLiveService._normalize`: strip, then for `numeric` keep only the
decimal digits, otherwise collapse whitespace runs via
`" ".join(t.split())`. -/
def gl_normalize (text write_language : String) : String :=
  let t := pyStrip text
  if write_language = "numeric" then
    String.mk (t.data.filter isAsciiDigit)
  else
    String.intercalate " " ((pySplitWS t.data []).map String.mk)

/-! ### Language resolution (spec §4.2)

`chat.py` (line 68), `stt.py` and `tts.py` read `SessionState.detected_language`
and call `store.get_language`/`set_language` and `SessionService.set_language`,
but no service module in the tree declares any of them; only the callers
survive.  The resolver is therefore modelled from the specification. -/

/-- Modelled from the spec: §4.2 Language Resolver, whose implementation
(the sticky `detected_language` field and the language accessors of the
session service and the store) is missing from the services in the tree.
`resolve(session.detected_language, externally_supplied_language, default)`
returns the first non-empty value among the session's sticky language, the
externally supplied language and the default, together with
`should_persist`, which holds only if the session had no sticky language yet
and a non-default value was found. -/
def resolve_language (sticky external : Option String) (dflt : String) :
    String × Bool :=
  let chosen :=
    if sticky.getD "" ≠ "" then sticky.getD ""
    else if external.getD "" ≠ "" then external.getD ""
    else dflt
  (chosen, sticky.getD "" = "" && chosen ≠ dflt)

/-! ### Example data -/

def nameField : FormField :=
  { field_id := "name_0", label := "Name", bbox := [10, 10, 80, 30]
    input_mode := "voice", write_language := "en" }

def dobField : FormField :=
  { field_id := "dob_1", label := "DOB", bbox := [10, 40, 80, 60]
    input_mode := "placeholder", write_language := "en" }

def phoneField : FormField :=
  { field_id := "phone_0", label := "Phone", bbox := [10, 10, 80, 30]
    input_mode := "voice", write_language := "numeric" }

/-- A session whose only field is already filled and confirmed. -/
def completeSession : SessionState :=
  { session_id := "s-complete", current_field_index := 1
    phase := Phase.ASK_INPUT, fields := [nameField]
    collected_values := [("name_0", "John Doe")]
    image_width := 300, image_height := 120 }

/-- A two-field session awaiting confirmation on the voice field `Name`,
with the `placeholder` field `DOB` next. -/
def placeholderSession : SessionState :=
  { session_id := "s-placeholder", current_field_index := 0
    phase := Phase.AWAIT_CONFIRMATION, fields := [nameField, dobField]
    collected_values := [("name_0", "John Doe")]
    image_width := 300, image_height := 120 }

/-- A fresh one-field session in phase ASK_INPUT. -/
def askSession : SessionState :=
  { session_id := "s-ask", current_field_index := 0
    phase := Phase.ASK_INPUT, fields := [nameField]
    collected_values := [], image_width := 300, image_height := 120 }

/-- A one-field session in phase AWAIT_CONFIRMATION with a stored value. -/
def awaitSession : SessionState :=
  { session_id := "s-await", current_field_index := 0
    phase := Phase.AWAIT_CONFIRMATION, fields := [nameField]
    collected_values := [("name_0", "John Doe")]
    image_width := 300, image_height := 120 }

/-- A fresh session whose current field has `write_language = "numeric"`. -/
def numericSession : SessionState :=
  { session_id := "s-numeric", current_field_index := 0
    phase := Phase.ASK_INPUT, fields := [phoneField]
    collected_values := [], image_width := 300, image_height := 120 }

/-! ### Helper lemmas -/

theorem get_current_field_of_lt (st : SessionState)
    (h : st.current_field_index < st.fields.length) :
    ∃ cf, get_current_field st = some cf := by
  unfold get_current_field
  rw [if_neg (by omega)]
  exact ⟨st.fields.get ⟨st.current_field_index, h⟩, List.getElem?_eq_getElem h⟩

theorem get_current_field_lt (st : SessionState) (cf : FormField)
    (h : get_current_field st = some cf) :
    st.current_field_index < st.fields.length := by
  unfold get_current_field at h
  by_cases hge : st.current_field_index ≥ st.fields.length
  · rw [if_pos hge] at h; exact absurd h (by simp)
  · omega

theorem set_phase_advance (st : SessionState) :
    set_phase (advance_to_next_field st) Phase.ASK_INPUT =
      advance_to_next_field st := rfl

theorem resolve_event_confirm (t : String) :
    resolve_event "CONFIRM_DONE" t = "CONFIRM_DONE" := by
  simp [resolve_event]

theorem resolve_event_skip (t : String) :
    resolve_event "SKIP_FIELD" t = "SKIP_FIELD" := by
  simp [resolve_event]

theorem contains_iff (l : List String) (s : String) :
    l.contains s = true ↔ s ∈ l := List.elem_iff

theorem resolve_event_user_spoke (t : String) :
    resolve_event "USER_SPOKE" t = "CONFIRM_DONE" ↔
      pyLower t ∈ confirmation_words := by
  unfold resolve_event
  by_cases ht : t = ""
  · subst ht
    simp [pyLower, confirmation_words]
  · by_cases hm : pyLower t ∈ confirmation_words
    · simp [ht, hm, contains_iff]
    · simp [ht, hm, contains_iff]

theorem normalize_event_canonical (v : Option String) :
    normalize_event v = "USER_SPOKE" ∨ normalize_event v = "CONFIRM_DONE" ∨
      normalize_event v = "SKIP_FIELD" := by
  match v with
  | none => left; rfl
  | some s =>
    simp only [normalize_event]
    by_cases h : s = ""
    · simp [h]
    · rw [if_neg h]
      simp only [eventMapping, dictGet]
      split_ifs <;> simp

theorem resolve_event_user_spoke_ne (t : String)
    (h : pyLower t ∉ confirmation_words) :
    resolve_event "USER_SPOKE" t = "USER_SPOKE" := by
  unfold resolve_event
  rw [if_neg (by simp [contains_iff, h])]

/-! ### Claim theorems -/

/-- C7: against a complete session (`current_field_index == len(fields)`),
every event (USER_SPOKE, CONFIRM_DONE, SKIP_FIELD — indeed any event string)
leaves the session state entirely unchanged and returns the completion
response with `action = null`; repeating any event is therefore idempotent. -/
theorem c7_complete_session_idempotent
    (extract instr : String → String → String → Option String)
    (stored_lang : Option String) (st : SessionState)
    (event : String) (ut um : Option String)
    (h : st.current_field_index = st.fields.length) :
    chat extract instr (some st) stored_lang event ut um =
      ChatResult.ok st
        { assistant_text := "You have completed the form. Thank you!", action := none } := by
  unfold chat has_more_fields
  simp [h, translate_if_needed]

theorem c7_witness :
    completeSession.current_field_index = completeSession.fields.length ∧
    chat stubExtract stubInstruction (some completeSession) none "SKIP_FIELD" none none =
      ChatResult.ok completeSession
        { assistant_text := "You have completed the form. Thank you!", action := none } :=
  ⟨rfl, c7_complete_session_idempotent stubExtract stubInstruction none completeSession
    "SKIP_FIELD" none none rfl⟩

/-- C10: the request-event validator never rejects a value: every string (or
absent value) is coerced to one of the three canonical events, with
trim/upper-case/space-to-underscore normalization, the aliases USER,
CONFIRM, CONFIRMATION, SKIP, SKIPFIELD mapping to the canonical events, and
everything else — including empty and unrecognized strings — becoming
USER_SPOKE. -/
theorem c10_normalize_event_total (v : Option String) :
    (normalize_event v = "USER_SPOKE" ∨ normalize_event v = "CONFIRM_DONE" ∨
      normalize_event v = "SKIP_FIELD") ∧
    normalize_event none = "USER_SPOKE" ∧
    normalize_event (some "") = "USER_SPOKE" ∧
    normalize_event (some " user ") = "USER_SPOKE" ∧
    normalize_event (some "USER") = "USER_SPOKE" ∧
    normalize_event (some "confirm") = "CONFIRM_DONE" ∧
    normalize_event (some "Confirmation") = "CONFIRM_DONE" ∧
    normalize_event (some "skip") = "SKIP_FIELD" ∧
    normalize_event (some "skip field") = "SKIP_FIELD" ∧
    normalize_event (some "SkipField") = "SKIP_FIELD" ∧
    normalize_event (some "gibberish!") = "USER_SPOKE" :=
  ⟨normalize_event_canonical v, by decide⟩

/-- C2 (spec-modelled): the sticky language is first-writer-wins.  Once a
session's sticky language is set (e.g. to `hi`), every later resolution
returns it unchanged with `should_persist = false`, even if the turn reports
a different language (e.g. `ta`); and whenever a resolution on a session
with no sticky language asks for persistence, every subsequent resolution
returns the persisted value and never asks to persist again, so the value is
persisted at most once. -/
theorem c2_sticky_language (l : String) (ext ext2 : Option String) :
    (l ≠ "" → resolve_language (some l) ext "en" = (l, false)) ∧
    ((resolve_language none ext "en").2 = true →
      resolve_language (some (resolve_language none ext "en").1) ext2 "en" =
        ((resolve_language none ext "en").1, false)) := by
  constructor
  · intro hl
    simp [resolve_language, hl]
  · intro hp
    unfold resolve_language at hp ⊢
    by_cases he : ext.getD "" = ""
    · simp [he] at hp
    · simp [he] at hp ⊢

theorem c2_witness :
    ("hi" ≠ "" ∧ resolve_language (some "hi") (some "ta") "en" = ("hi", false)) :=
  ⟨by decide, (c2_sticky_language "hi" (some "ta") none).1 (by decide)⟩

/-- C3 counterexample: the claim's confirmation-keyword set includes `next`,
but the set in `chat.py` does not: the input `next` (trimmed and
lower-cased, it is the keyword itself) is NOT reinterpreted as CONFIRM_DONE —
the event stays USER_SPOKE. -/
theorem c3_counterexample :
    pyLower (pyStrip "  next  ") = "next" ∧
    resolve_event "USER_SPOKE" (pyStrip "  next  ") = "USER_SPOKE" := by decide

/-- C3 (amended: the closed keyword set is {done, finished, ok, completed,
yes, y, confirmed}, without `next`): a USER_SPOKE whose text, lower-cased
and trimmed, exactly equals a member of that set is reinterpreted as
CONFIRM_DONE, and only then; the reinterpretation happens before the
state-dependent dispatch, so such a turn is processed identically to a
CONFIRM_DONE event; the inputs `  Done  `, `DONE` and `done` all resolve to
CONFIRM_DONE. -/
theorem c3_keyword_reinterpretation
    (extract instr : String → String → String → Option String)
    (stored_lang : Option String) (st : SessionState)
    (ut um : Option String) :
    (resolve_event "USER_SPOKE" (pyStrip (pyOr ut um)) = "CONFIRM_DONE" ↔
       pyLower (pyStrip (pyOr ut um)) ∈ confirmation_words) ∧
    (pyLower (pyStrip (pyOr ut um)) ∈ confirmation_words →
       chat extract instr (some st) stored_lang "USER_SPOKE" ut um =
         chat extract instr (some st) stored_lang "CONFIRM_DONE" ut um) ∧
    resolve_event "USER_SPOKE" (pyStrip "  Done  ") = "CONFIRM_DONE" ∧
    resolve_event "USER_SPOKE" (pyStrip "DONE") = "CONFIRM_DONE" ∧
    resolve_event "USER_SPOKE" (pyStrip "done") = "CONFIRM_DONE" := by
  refine ⟨resolve_event_user_spoke _, ?_, by decide, by decide, by decide⟩
  intro hm
  have h1 := (resolve_event_user_spoke (pyStrip (pyOr ut um))).mpr hm
  simp only [chat, h1, resolve_event_confirm, String.reduceEq, reduceIte]

theorem c3_witness :
    pyLower (pyStrip (pyOr (some "  Done  ") none)) ∈ confirmation_words ∧
    chat stubExtract stubInstruction (some awaitSession) none "USER_SPOKE"
        (some "  Done  ") none =
      chat stubExtract stubInstruction (some awaitSession) none "CONFIRM_DONE"
        (some "  Done  ") none :=
  ⟨by decide,
   (c3_keyword_reinterpretation stubExtract stubInstruction none awaitSession
      (some "  Done  ") none).2.1 (by decide)⟩

/-- C9: a turn arriving in AWAIT_CONFIRMATION with a USER_SPOKE whose text
is not a confirmation keyword leaves the session state exactly as loaded and
re-emits the current field's draw-guide action carrying the previously
stored `text_to_write`. -/
theorem c9_await_reemit (extract instr : String → String → String → Option String)
    (stored_lang : Option String)
    (st : SessionState) (cf : FormField) (ut um : Option String)
    (hph : st.phase = Phase.AWAIT_CONFIRMATION)
    (hcf : get_current_field st = some cf)
    (hkw : pyLower (pyStrip (pyOr ut um)) ∉ confirmation_words) :
    chat extract instr (some st) stored_lang "USER_SPOKE" ut um =
      ChatResult.ok st
        { assistant_text :=
            "Please write it down first, then press the \x27Done Writing\x27 button."
          action := some
            { field_id := cf.field_id
              field_label := cf.label
              text_to_write := dictGet st.collected_values cf.field_id ""
              bbox := cf.bbox
              image_width := st.image_width
              image_height := st.image_height } } := by
  have hlt := get_current_field_lt st cf hcf
  have hres := resolve_event_user_spoke_ne (pyStrip (pyOr ut um)) hkw
  simp only [chat, has_more_fields, hcf, hph, hres, String.reduceEq, reduceIte]
  simp [hlt, translate_if_needed]

theorem c9_witness :
    awaitSession.phase = Phase.AWAIT_CONFIRMATION ∧
    get_current_field awaitSession = some nameField ∧
    pyLower (pyStrip (pyOr (some "blah") none)) ∉ confirmation_words ∧
    chat stubExtract stubInstruction (some awaitSession) none "USER_SPOKE"
        (some "blah") none =
      ChatResult.ok awaitSession
        { assistant_text :=
            "Please write it down first, then press the \x27Done Writing\x27 button."
          action := some
            { field_id := "name_0", field_label := "Name"
              text_to_write := "John Doe", bbox := [10, 10, 80, 30]
              image_width := 300, image_height := 120 } } :=
  ⟨rfl, rfl, by decide,
   c9_await_reemit stubExtract stubInstruction none awaitSession nameField
     (some "blah") none rfl rfl (by decide)⟩

/-- Every `/chat` turn on a known session either fails with the 400
user-text error, fails with the uncaught-extraction 500, or returns 200
with the stored state equal to one of: the loaded state, the advanced
state, or the loaded state with one value stored and the phase set to
AWAIT_CONFIRMATION (the two mutating outcomes only when the session was not
complete).  In particular the guarded 500s ("No current field", "No next
field after skip") are unreachable. -/
theorem chat_cases (extract instr : String → String → String → Option String)
    (st : SessionState) (stored_lang : Option String) (e : String)
    (ut um : Option String) :
    chat extract instr (some st) stored_lang e ut um =
        ChatResult.error 400 "user_text required for USER_SPOKE event" ∨
      chat extract instr (some st) stored_lang e ut um =
        ChatResult.error 500 "Internal Server Error" ∨
      (∃ resp, chat extract instr (some st) stored_lang e ut um =
        ChatResult.ok st resp) ∨
      (st.current_field_index < st.fields.length ∧
        ((∃ resp, chat extract instr (some st) stored_lang e ut um =
            ChatResult.ok (advance_to_next_field st) resp) ∨
         (∃ fid v resp, chat extract instr (some st) stored_lang e ut um =
            ChatResult.ok (set_phase (store_value st fid v)
              Phase.AWAIT_CONFIRMATION) resp))) := by
  by_cases hm : st.current_field_index < st.fields.length
  · obtain ⟨cf, hcf⟩ := get_current_field_of_lt st hm
    simp only [chat, has_more_fields, hcf]
    rw [if_neg (by simp [hm])]
    set t := pyStrip (pyOr ut um) with ht
    set ev := resolve_event (if e = "" then "USER_SPOKE" else e) t with hev
    split
    · -- SKIP_FIELD branch
      refine Or.inr (Or.inr (Or.inr ⟨hm, Or.inl ?_⟩))
      split
      · exact ⟨_, rfl⟩
      · next hmore =>
        have hlt1 : (advance_to_next_field st).current_field_index <
            (advance_to_next_field st).fields.length := by
          simpa [has_more_fields] using hmore
        obtain ⟨nf, hnf⟩ := get_current_field_of_lt _ hlt1
        rw [hnf, set_phase_advance]
        exact ⟨_, rfl⟩
    · -- phase dispatch
      split
      · -- ASK_INPUT
        split
        · exact Or.inr (Or.inr (Or.inl ⟨_, rfl⟩))
        · split
          · exact Or.inl rfl
          · split
            · exact Or.inr (Or.inl rfl)
            · exact Or.inr (Or.inr (Or.inr ⟨hm, Or.inr ⟨cf.field_id, _, _, rfl⟩⟩))
      · -- AWAIT_CONFIRMATION
        split
        · exact Or.inr (Or.inr (Or.inl ⟨_, rfl⟩))
        · refine Or.inr (Or.inr (Or.inr ⟨hm, Or.inl ?_⟩))
          split
          · exact ⟨_, rfl⟩
          · split
            · exact ⟨_, rfl⟩
            · exact ⟨_, rfl⟩
  · simp only [chat, has_more_fields]
    rw [if_pos (by simpa using hm)]
    exact Or.inr (Or.inr (Or.inl ⟨_, rfl⟩))

/-- The 400 error occurs exactly when the session is not complete, the phase
is ASK_INPUT, the (keyword-resolved) event is USER_SPOKE and the stripped
text is empty. -/
theorem chat_error400_iff (extract instr : String → String → String → Option String)
    (st : SessionState) (stored_lang : Option String) (e : String)
    (ut um : Option String) :
    chat extract instr (some st) stored_lang e ut um =
        ChatResult.error 400 "user_text required for USER_SPOKE event" ↔
      (st.current_field_index < st.fields.length ∧ st.phase = Phase.ASK_INPUT ∧
       resolve_event (if e = "" then "USER_SPOKE" else e)
         (pyStrip (pyOr ut um)) = "USER_SPOKE" ∧
       pyStrip (pyOr ut um) = "") := by
  by_cases hm : st.current_field_index < st.fields.length
  · obtain ⟨cf, hcf⟩ := get_current_field_of_lt st hm
    simp only [chat, has_more_fields, hcf]
    rw [if_neg (by simp [hm])]
    set t := pyStrip (pyOr ut um) with ht
    set ev := resolve_event (if e = "" then "USER_SPOKE" else e) t with hev
    split
    · next hskip =>
      constructor
      · intro h
        exfalso
        split at h
        · cases h
        · split at h
          · cases h
          · cases h
      · rintro ⟨-, -, hus, -⟩
        rw [hus] at hskip
        simp at hskip
    · next hskip =>
      split
      · next hph =>
        split
        · next hne =>
          constructor
          · intro h; cases h
          · rintro ⟨-, -, hus, -⟩
            exact absurd hus hne
        · next hne =>
          rw [not_not] at hne
          split
          · next h0 =>
            constructor
            · intro _; exact ⟨hm, hph, hne, h0⟩
            · intro _; rfl
          · next h0 =>
            split
            · constructor
              · intro h; simp at h
              · rintro ⟨-, -, -, h1⟩
                exact absurd h1 h0
            · constructor
              · intro h; cases h
              · rintro ⟨-, -, -, h1⟩
                exact absurd h1 h0
      · next hph =>
        constructor
        · intro h
          split at h
          · cases h
          · split at h
            · cases h
            · split at h
              · cases h
              · cases h
        · rintro ⟨-, hask, -, -⟩
          rw [hph] at hask
          cases hask
  · simp only [chat, has_more_fields]
    rw [if_pos (by simpa using hm)]
    constructor
    · intro h; cases h
    · rintro ⟨hlt, -⟩
      exact absurd hlt hm

theorem resolve_event_empty (e : String) : resolve_event e "" = e := by
  simp [resolve_event]

theorem resolve_event_eq_user_iff (e t : String) :
    resolve_event e t = "USER_SPOKE" ↔
      (e = "USER_SPOKE" ∧ (t = "" ∨ pyLower t ∉ confirmation_words)) := by
  unfold resolve_event
  by_cases he : e = "USER_SPOKE"
  · subst he
    by_cases ht : t = ""
    · simp [ht]
    · by_cases hkw : pyLower t ∈ confirmation_words
      · simp [ht, hkw, contains_iff]
      · simp [ht, hkw, contains_iff]
  · simp [he]

/-- The uncaught extraction failure is the only reachable 500: it occurs
exactly when the session is not complete, the phase is ASK_INPUT, the
(keyword-resolved) event is USER_SPOKE, the stripped text is non-empty and
the extraction call fails. -/
theorem chat_error500_iff (extract instr : String → String → String → Option String)
    (st : SessionState) (stored_lang : Option String) (e : String)
    (ut um : Option String) :
    chat extract instr (some st) stored_lang e ut um =
        ChatResult.error 500 "Internal Server Error" ↔
      (st.current_field_index < st.fields.length ∧ st.phase = Phase.ASK_INPUT ∧
       resolve_event (if e = "" then "USER_SPOKE" else e)
         (pyStrip (pyOr ut um)) = "USER_SPOKE" ∧
       pyStrip (pyOr ut um) ≠ "" ∧
       ∃ cf, get_current_field st = some cf ∧
         extract cf.label (pyStrip (pyOr ut um)) cf.write_language = none) := by
  by_cases hm : st.current_field_index < st.fields.length
  · obtain ⟨cf, hcf⟩ := get_current_field_of_lt st hm
    simp only [chat, has_more_fields, hcf]
    rw [if_neg (by simp [hm])]
    set t := pyStrip (pyOr ut um) with ht
    set ev := resolve_event (if e = "" then "USER_SPOKE" else e) t with hev
    split
    · next hskip =>
      constructor
      · intro h
        exfalso
        split at h
        · cases h
        · split at h
          · simp at h
          · cases h
      · rintro ⟨-, -, hus, -, -⟩
        rw [hus] at hskip
        simp at hskip
    · next hskip =>
      split
      · next hph =>
        split
        · next hneu =>
          constructor
          · intro h; cases h
          · rintro ⟨-, -, hus, -, -⟩
            exact absurd hus hneu
        · next hneu =>
          rw [not_not] at hneu
          split
          · next h0 =>
            constructor
            · intro h; simp at h
            · rintro ⟨-, -, -, h1, -⟩
              exact absurd h0 h1
          · next h0 =>
            split
            · next hnone =>
              constructor
              · intro _
                exact ⟨hm, hph, hneu, h0, cf, rfl, hnone⟩
              · intro _; rfl
            · next v hsome =>
              constructor
              · intro h; cases h
              · rintro ⟨-, -, -, -, cf2, hcf2, hnone⟩
                cases hcf2
                rw [hnone] at hsome
                cases hsome
      · next hph =>
        constructor
        · intro h
          split at h
          · cases h
          · split at h
            · cases h
            · split at h
              · cases h
              · cases h
        · rintro ⟨-, hask, -, -, -⟩
          rw [hph] at hask
          cases hask
  · simp only [chat, has_more_fields]
    rw [if_pos (by simpa using hm)]
    constructor
    · intro h; cases h
    · rintro ⟨hlt, -⟩
      exact absurd hlt hm

/-- The SKIP_FIELD branch always returns 200 with the advanced state. -/
theorem chat_skip (extract instr : String → String → String → Option String)
    (st : SessionState) (stored_lang : Option String) (ut um : Option String)
    (hm : st.current_field_index < st.fields.length) :
    ∃ resp, chat extract instr (some st) stored_lang "SKIP_FIELD" ut um =
      ChatResult.ok (advance_to_next_field st) resp := by
  obtain ⟨cf, hcf⟩ := get_current_field_of_lt st hm
  simp only [chat, has_more_fields, hcf]
  rw [if_neg (by simp [hm])]
  simp only [resolve_event_skip, String.reduceEq, reduceIte]
  by_cases hlt1 : (advance_to_next_field st).current_field_index <
      (advance_to_next_field st).fields.length
  · obtain ⟨nf, hnf⟩ := get_current_field_of_lt _ hlt1
    rw [if_neg (by simp [hlt1]), hnf, set_phase_advance]
    exact ⟨_, rfl⟩
  · rw [if_pos (by simp [hlt1])]
    exact ⟨_, rfl⟩

/-- A CONFIRM_DONE arriving in AWAIT_CONFIRMATION always returns 200 with
the advanced state. -/
theorem chat_confirm_await (extract instr : String → String → String → Option String)
    (st : SessionState) (stored_lang : Option String) (ut um : Option String)
    (hm : st.current_field_index < st.fields.length)
    (hph : st.phase = Phase.AWAIT_CONFIRMATION) :
    ∃ resp, chat extract instr (some st) stored_lang "CONFIRM_DONE" ut um =
      ChatResult.ok (advance_to_next_field st) resp := by
  obtain ⟨cf, hcf⟩ := get_current_field_of_lt st hm
  simp only [chat, has_more_fields, hcf]
  rw [if_neg (by simp [hm])]
  simp only [resolve_event_confirm, hph, String.reduceEq, reduceIte, ne_eq,
    not_true, not_false_iff]
  by_cases hlt1 : (advance_to_next_field st).current_field_index <
      (advance_to_next_field st).fields.length
  · rw [if_neg (by simp [hlt1])]
    rcases hnf : get_current_field (advance_to_next_field st) with _ | nf
    · exact ⟨_, rfl⟩
    · exact ⟨_, rfl⟩
  · rw [if_pos (by simp [hlt1])]
    exact ⟨_, rfl⟩

/-- C5 counterexample: a USER_SPOKE turn with empty `user_text` against a
session in AWAIT_CONFIRMATION — where the claim says `user_text` is required
and demands 400 — actually returns 200 (the corrective re-emit). -/
theorem c5_counterexample :
    normalize_event (some "USER_SPOKE") = "USER_SPOKE" ∧
    pyStrip (pyOr (some "") none) = "" ∧
    (chat stubExtract stubInstruction (some awaitSession) none
      (normalize_event (some "USER_SPOKE")) (some "") none).statusOf = 200 := by decide

/-- C5 (amended: the 400 additionally requires the session to be
non-complete and in phase ASK_INPUT, and an uncaught failure of the
external value-extraction call surfaces as 500): a /chat request returns
404 iff the session is unknown; on a known session it returns 400 iff the
session is non-complete, in phase ASK_INPUT, the event resolves to
USER_SPOKE and the stripped text is empty (an empty text is never a
confirmation keyword); it returns 500 iff, in that same
ASK_INPUT/USER_SPOKE situation with a non-empty non-keyword text, the
extraction call fails; and it returns 200 in every other case — including
events invalid for the current phase, an empty USER_SPOKE in
AWAIT_CONFIRMATION, and any event against a complete session. -/
theorem c5_status_codes (extract instr : String → String → String → Option String)
    (stored_lang : Option String) (st : SessionState)
    (rawEvent ut um : Option String) :
    (chat extract instr none stored_lang
      (normalize_event rawEvent) ut um).statusOf = 404 ∧
    (chat extract instr (some st) stored_lang
      (normalize_event rawEvent) ut um).statusOf ≠ 404 ∧
    ((chat extract instr (some st) stored_lang
        (normalize_event rawEvent) ut um).statusOf = 400 ↔
      (st.current_field_index < st.fields.length ∧ st.phase = Phase.ASK_INPUT ∧
       normalize_event rawEvent = "USER_SPOKE" ∧ pyStrip (pyOr ut um) = "")) ∧
    ((chat extract instr (some st) stored_lang
        (normalize_event rawEvent) ut um).statusOf = 500 ↔
      (st.current_field_index < st.fields.length ∧ st.phase = Phase.ASK_INPUT ∧
       normalize_event rawEvent = "USER_SPOKE" ∧ pyStrip (pyOr ut um) ≠ "" ∧
       pyLower (pyStrip (pyOr ut um)) ∉ confirmation_words ∧
       ∃ cf, get_current_field st = some cf ∧
         extract cf.label (pyStrip (pyOr ut um)) cf.write_language = none)) ∧
    ((chat extract instr (some st) stored_lang
        (normalize_event rawEvent) ut um).statusOf = 200 ∨
     (chat extract instr (some st) stored_lang
        (normalize_event rawEvent) ut um).statusOf = 400 ∨
     (chat extract instr (some st) stored_lang
        (normalize_event rawEvent) ut um).statusOf = 500) := by
  set e := normalize_event rawEvent with he
  have hcan : e = "USER_SPOKE" ∨ e = "CONFIRM_DONE" ∨ e = "SKIP_FIELD" := by
    rw [he]; exact normalize_event_canonical rawEvent
  have hne : e ≠ "" := by rcases hcan with h | h | h <;> simp [h]
  have h400 : (chat extract instr (some st) stored_lang e ut um).statusOf = 400 ↔
      chat extract instr (some st) stored_lang e ut um =
        ChatResult.error 400 "user_text required for USER_SPOKE event" := by
    rcases chat_cases extract instr st stored_lang e ut um with
      h | h | ⟨r, h⟩ | ⟨-, ⟨r, h⟩ | ⟨f, v, r, h⟩⟩ <;>
      rw [h] <;> simp [ChatResult.statusOf]
  have h500 : (chat extract instr (some st) stored_lang e ut um).statusOf = 500 ↔
      chat extract instr (some st) stored_lang e ut um =
        ChatResult.error 500 "Internal Server Error" := by
    rcases chat_cases extract instr st stored_lang e ut um with
      h | h | ⟨r, h⟩ | ⟨-, ⟨r, h⟩ | ⟨f, v, r, h⟩⟩ <;>
      rw [h] <;> simp [ChatResult.statusOf]
  refine ⟨rfl, ?_, ?_, ?_, ?_⟩
  · rcases chat_cases extract instr st stored_lang e ut um with
      h | h | ⟨r, h⟩ | ⟨-, ⟨r, h⟩ | ⟨f, v, r, h⟩⟩ <;>
      rw [h] <;> simp [ChatResult.statusOf]
  · rw [h400, chat_error400_iff, if_neg hne]
    constructor
    · rintro ⟨h1, h2, h3, h4⟩
      rw [h4, resolve_event_empty] at h3
      exact ⟨h1, h2, h3, h4⟩
    · rintro ⟨h1, h2, h3, h4⟩
      exact ⟨h1, h2, by rw [h4, resolve_event_empty, h3], h4⟩
  · rw [h500, chat_error500_iff, if_neg hne]
    constructor
    · rintro ⟨h1, h2, h3, h4, hcf⟩
      rw [resolve_event_eq_user_iff] at h3
      refine ⟨h1, h2, h3.1, h4, ?_, hcf⟩
      rcases h3.2 with h | h
      · exact absurd h h4
      · exact h
    · rintro ⟨h1, h2, h3, h4, h5, hcf⟩
      exact ⟨h1, h2,
        (resolve_event_eq_user_iff e (pyStrip (pyOr ut um))).mpr ⟨h3, Or.inr h5⟩,
        h4, hcf⟩
  · rcases chat_cases extract instr st stored_lang e ut um with
      h | h | ⟨r, h⟩ | ⟨-, ⟨r, h⟩ | ⟨f, v, r, h⟩⟩ <;>
      rw [h] <;> simp [ChatResult.statusOf]

/-- The state that a turn leaves in the store is the loaded state, or (only
when the session was not complete) the advanced state or the state with one
value stored and phase AWAIT_CONFIRMATION. -/
theorem chatState_cases (extract instr : String → String → String → Option String)
    (st : SessionState) (stored_lang : Option String) (e : String)
    (ut um : Option String) :
    chatState extract instr st stored_lang e ut um = st ∨
    (st.current_field_index < st.fields.length ∧
      (chatState extract instr st stored_lang e ut um = advance_to_next_field st ∨
       ∃ fid v, chatState extract instr st stored_lang e ut um =
         set_phase (store_value st fid v) Phase.AWAIT_CONFIRMATION)) := by
  rcases chat_cases extract instr st stored_lang e ut um with
    h | h | ⟨r, h⟩ | ⟨hlt, ⟨r, h⟩ | ⟨f, v, r, h⟩⟩
  · left; unfold chatState; rw [h]
  · left; unfold chatState; rw [h]
  · left; unfold chatState; rw [h]
  · right; exact ⟨hlt, Or.inl (by unfold chatState; rw [h])⟩
  · right; exact ⟨hlt, Or.inr ⟨f, v, by unfold chatState; rw [h]⟩⟩

theorem chatState_le (extract instr : String → String → String → Option String)
    (st : SessionState) (stored_lang : Option String) (e : String)
    (ut um : Option String)
    (h : st.current_field_index ≤ st.fields.length) :
    (chatState extract instr st stored_lang e ut um).current_field_index ≤
      (chatState extract instr st stored_lang e ut um).fields.length := by
  rcases chatState_cases extract instr st stored_lang e ut um with
    hc | ⟨hlt, hc | ⟨f, v, hc⟩⟩ <;> rw [hc]
  · exact h
  · simpa [advance_to_next_field] using hlt
  · simpa [set_phase, store_value] using h

/-- A whole conversation: fold the turn processor over a list of raw
requests (stored language, raw event, user_text, user_message). -/
def run_turns (extract instr : String → String → String → Option String)
    (st : SessionState)
    (turns : List (Option String × Option String × Option String × Option String)) :
    SessionState :=
  turns.foldl
    (fun s tr =>
      chatState extract instr s tr.1 (normalize_event tr.2.1) tr.2.2.1 tr.2.2.2) st

/-- C8: a session created by the core and mutated only through chat turns
satisfies `0 ≤ current_field_index ≤ len(fields)` after every sequence of
turns (and hence before and after every turn): no sequence of USER_SPOKE,
CONFIRM_DONE and SKIP_FIELD events drives the index past `len(fields)` or
below 0. -/
theorem c8_index_within_bounds (extract instr : String → String → String → Option String)
    (sid : String) (fs : List FormField) (w ht : Nat)
    (turns : List (Option String × Option String × Option String × Option String)) :
    0 ≤ (run_turns extract instr (create_session sid fs w ht) turns).current_field_index ∧
    (run_turns extract instr (create_session sid fs w ht) turns).current_field_index ≤
      (run_turns extract instr (create_session sid fs w ht) turns).fields.length := by
  refine ⟨Nat.zero_le _, ?_⟩
  have key : ∀ (ts : List (Option String × Option String × Option String × Option String))
      (s : SessionState), s.current_field_index ≤ s.fields.length →
      (run_turns extract instr s ts).current_field_index ≤
        (run_turns extract instr s ts).fields.length := by
    intro ts
    induction ts with
    | nil => intro s hs; simpa [run_turns] using hs
    | cons tr ts ih =>
      intro s hs
      have hstep := chatState_le extract instr s tr.1 (normalize_event tr.2.1)
        tr.2.2.1 tr.2.2.2 hs
      simpa [run_turns, List.foldl_cons] using ih _ hstep
  exact key turns _ (by simp [create_session])

/-- C6 counterexample: a CONFIRM_DONE arriving in phase ASK_INPUT does NOT
advance: the session is returned unchanged (index still 0) with a
corrective prompt, contradicting "this holds regardless of the phase in
which the event arrives". -/
theorem c6_counterexample :
    askSession.phase = Phase.ASK_INPUT ∧
    chat stubExtract stubInstruction (some askSession) none "CONFIRM_DONE" none none =
      ChatResult.ok askSession
        { assistant_text := "Please speak the value for Name.", action := none } ∧
    (chatState stubExtract stubInstruction askSession none "CONFIRM_DONE"
      none none).current_field_index = askSession.current_field_index := by decide

/-- C6 (amended: SKIP_FIELD advances regardless of phase, but CONFIRM_DONE
advances only when it arrives in AWAIT_CONFIRMATION): on a non-complete
session, SKIP_FIELD always increments `current_field_index` by exactly 1
and resets the phase to ASK_INPUT; CONFIRM_DONE does the same when the
session is in AWAIT_CONFIRMATION; a CONFIRM_DONE arriving in ASK_INPUT
leaves the session unchanged and returns a corrective prompt. -/
theorem c6_advance_semantics (extract instr : String → String → String → Option String)
    (stored_lang : Option String)
    (st : SessionState) (cf : FormField) (ut um : Option String)
    (hcf : get_current_field st = some cf) :
    ((chatState extract instr st stored_lang "SKIP_FIELD" ut um).current_field_index =
        st.current_field_index + 1 ∧
     (chatState extract instr st stored_lang "SKIP_FIELD" ut um).phase =
        Phase.ASK_INPUT) ∧
    (st.phase = Phase.AWAIT_CONFIRMATION →
      (chatState extract instr st stored_lang "CONFIRM_DONE" ut um).current_field_index =
          st.current_field_index + 1 ∧
      (chatState extract instr st stored_lang "CONFIRM_DONE" ut um).phase =
          Phase.ASK_INPUT) ∧
    (st.phase = Phase.ASK_INPUT →
      chat extract instr (some st) stored_lang "CONFIRM_DONE" ut um =
        ChatResult.ok st
          { assistant_text := "Please speak the value for " ++ cf.label ++ "."
            action := none }) := by
  have hm := get_current_field_lt st cf hcf
  refine ⟨?_, ?_, ?_⟩
  · obtain ⟨r, hr⟩ := chat_skip extract instr st stored_lang ut um hm
    unfold chatState
    rw [hr]
    exact ⟨rfl, rfl⟩
  · intro hph
    obtain ⟨r, hr⟩ := chat_confirm_await extract instr st stored_lang ut um hm hph
    unfold chatState
    rw [hr]
    exact ⟨rfl, rfl⟩
  · intro hph
    simp only [chat, has_more_fields, hcf]
    rw [if_neg (by simp [hm])]
    simp only [resolve_event_confirm, hph, String.reduceEq, reduceIte, ne_eq]
    simp [translate_if_needed]

theorem c6_witness :
    get_current_field awaitSession = some nameField ∧
    (chatState stubExtract stubInstruction awaitSession none "SKIP_FIELD"
      none none).current_field_index = 1 ∧
    (chatState stubExtract stubInstruction awaitSession none "SKIP_FIELD"
      none none).phase = Phase.ASK_INPUT :=
  ⟨rfl,
   (c6_advance_semantics stubExtract stubInstruction none awaitSession nameField
      none none rfl).1.1,
   (c6_advance_semantics stubExtract stubInstruction none awaitSession nameField
      none none rfl).1.2⟩

/-- C1 counterexample: when the `placeholder` field DOB becomes current via
a CONFIRM_DONE advance, the turn ends in phase ASK_INPUT with `action =
null` (a prompt asking the user to speak) — not in AWAIT_CONFIRMATION with
an empty-text write-guidance as the claim states. -/
theorem c1_counterexample :
    (placeholderSession.fields[1]?).map FormField.input_mode = some "placeholder" ∧
    chat stubExtract stubInstruction (some placeholderSession) none
        "CONFIRM_DONE" none none =
      ChatResult.ok
        { placeholderSession with current_field_index := 1, phase := Phase.ASK_INPUT }
        { assistant_text := "Now please say the value for DOB.", action := none } ∧
    (chatState stubExtract stubInstruction placeholderSession none "CONFIRM_DONE"
      none none).phase ≠ Phase.AWAIT_CONFIRMATION := by decide

/-- C1 (amended: there is no placeholder auto-advance — the processor never
reads `input_mode`): a CONFIRM_DONE advance onto any next field, placeholder
included, leaves the session in phase ASK_INPUT on that field, stores no
value, and returns a spoken prompt with `action = null`; the write-guidance
for the field is only produced by a subsequent USER_SPOKE turn, exactly as
for voice fields. -/
theorem c1_no_placeholder_auto_advance
    (extract instr : String → String → String → Option String)
    (stored_lang : Option String)
    (st : SessionState) (nf : FormField) (ut um : Option String)
    (hph : st.phase = Phase.AWAIT_CONFIRMATION)
    (hnf : st.fields[st.current_field_index + 1]? = some nf) :
    chat extract instr (some st) stored_lang "CONFIRM_DONE" ut um =
      ChatResult.ok (advance_to_next_field st)
        { assistant_text := "Now please say the value for " ++ nf.label ++ "."
          action := none } := by
  have hlt1 : st.current_field_index + 1 < st.fields.length := by
    by_contra hc
    rw [List.getElem?_eq_none (by omega)] at hnf
    cases hnf
  have hm : st.current_field_index < st.fields.length := by omega
  obtain ⟨cf, hcf⟩ := get_current_field_of_lt st hm
  have hcf1 : get_current_field (advance_to_next_field st) = some nf := by
    show (if st.current_field_index + 1 ≥ st.fields.length then none
          else st.fields[st.current_field_index + 1]?) = some nf
    rw [if_neg (by omega), hnf]
  simp only [chat, has_more_fields, hcf]
  rw [if_neg (by simp [hm])]
  simp only [resolve_event_confirm, hph, String.reduceEq, reduceIte, ne_eq]
  rw [hcf1]
  simp [advance_to_next_field, hlt1, translate_if_needed]

theorem c1_witness :
    placeholderSession.phase = Phase.AWAIT_CONFIRMATION ∧
    (placeholderSession.fields[placeholderSession.current_field_index + 1]?).map
      FormField.input_mode = some "placeholder" ∧
    chat stubExtract stubInstruction (some placeholderSession) none
        "CONFIRM_DONE" none none =
      ChatResult.ok (advance_to_next_field placeholderSession)
        { assistant_text := "Now please say the value for DOB.", action := none } :=
  ⟨rfl, rfl,
   c1_no_placeholder_auto_advance stubExtract stubInstruction none
     placeholderSession dobField none none rfl rfl⟩

/-- C4 counterexample: with the deterministic extraction stub, a turn on the
`numeric` field Phone with input `call 98765 43210 now` stores the raw text
unchanged — not the digit-stripped `9876543210` the claim requires. -/
theorem c4_counterexample :
    phoneField.write_language = "numeric" ∧
    chat stubExtract stubInstruction (some numericSession) none "USER_SPOKE"
        (some "call 98765 43210 now") none =
      ChatResult.ok
        { numericSession with
            phase := Phase.AWAIT_CONFIRMATION
            collected_values := [("phone_0", "call 98765 43210 now")] }
        { assistant_text :=
            "Please write call 98765 43210 now inside the highlighted box."
          action := some
            { field_id := "phone_0", field_label := "Phone"
              text_to_write := "call 98765 43210 now", bbox := [10, 10, 80, 30]
              image_width := 300, image_height := 120 } } ∧
    dictGet (chatState stubExtract stubInstruction numericSession none "USER_SPOKE"
        (some "call 98765 43210 now") none).collected_values "phone_0" "" ≠
      "9876543210" := by decide

/-- C4 (amended: the chat turn applies no per-`write_language`
normalization — whenever the uncaught extraction call succeeds it stores
the extraction result verbatim for every `write_language`, numeric
included, and emits it verbatim as `text_to_write`, with the spoken
instruction being the English template for resolved language `en` and
otherwise the result of `generate_instruction_text` with the English
template as the fallback; the claimed normalization policy is implemented
only by `GeminiLiveService._normalize`, which no chat turn invokes, and
there `numeric` does strip every non-digit — `call 98765 43210 now` →
`9876543210` — while other languages collapse whitespace runs and trim). -/
theorem c4_turn_stores_extractor_output
    (extract instr : String → String → String → Option String)
    (stored_lang : Option String) (st : SessionState) (cf : FormField)
    (ut um : Option String) (v : String)
    (hph : st.phase = Phase.ASK_INPUT)
    (hcf : get_current_field st = some cf)
    (hne : pyStrip (pyOr ut um) ≠ "")
    (hkw : pyLower (pyStrip (pyOr ut um)) ∉ confirmation_words)
    (hex : extract cf.label (pyStrip (pyOr ut um)) cf.write_language = some v) :
    (chat extract instr (some st) stored_lang "USER_SPOKE" ut um =
      ChatResult.ok
        (set_phase (store_value st cf.field_id v) Phase.AWAIT_CONFIRMATION)
        { assistant_text :=
            instruction_text instr (normalize_language stored_lang) cf.label v
          action := some
            { field_id := cf.field_id, field_label := cf.label
              text_to_write := v
              bbox := cf.bbox, image_width := st.image_width
              image_height := st.image_height } }) ∧
    gl_normalize "call 98765 43210 now" "numeric" = "9876543210" ∧
    gl_normalize "  John   Doe  " "en" = "John Doe" := by
  have hm := get_current_field_lt st cf hcf
  have hres := resolve_event_user_spoke_ne (pyStrip (pyOr ut um)) hkw
  refine ⟨?_, by decide, by decide⟩
  simp only [chat, has_more_fields, hcf]
  rw [if_neg (by simp [hm])]
  simp only [hres, hph, String.reduceEq, reduceIte, ne_eq]
  rw [if_neg hne, hex]
  simp

theorem c4_witness :
    numericSession.phase = Phase.ASK_INPUT ∧
    get_current_field numericSession = some phoneField ∧
    pyStrip (pyOr (some "call 98765 43210 now") none) ≠ "" ∧
    stubExtract "Phone" (pyStrip (pyOr (some "call 98765 43210 now") none))
      "numeric" = some "call 98765 43210 now" ∧
    chat stubExtract stubInstruction (some numericSession) none "USER_SPOKE"
        (some "call 98765 43210 now") none =
      ChatResult.ok
        (set_phase (store_value numericSession "phone_0" "call 98765 43210 now")
          Phase.AWAIT_CONFIRMATION)
        { assistant_text :=
            instruction_text stubInstruction (normalize_language none) "Phone"
              "call 98765 43210 now"
          action := some
            { field_id := "phone_0", field_label := "Phone"
              text_to_write := "call 98765 43210 now"
              bbox := [10, 10, 80, 30], image_width := 300, image_height := 120 } } :=
  ⟨rfl, rfl, by decide, by decide,
   (c4_turn_stores_extractor_output stubExtract stubInstruction none numericSession
      phoneField (some "call 98765 43210 now") none "call 98765 43210 now"
      rfl rfl (by decide) (by decide) (by decide)).1⟩

end Speak2Fill
